import Mathlib

/-!
Shallow embedding of `src/components/pages/Dashboard.tsx` (zipline admin
dashboard page): the byte-size formatter `bytesToRead`, the pagination
slice of the file table, the refresh orchestration `updateImages`, the
delete handler `handleDelete`, the page-size handler
`handleChangeRowsPerPage`, and the two derived stat displays (views ratio
and average size).

JavaScript numbers are modelled by `JSNum`: NaN, the two infinities, and
finite values as exact rationals.  All inputs the claims evaluate are small
integers or exact powers of 1024, on which rational arithmetic agrees with
IEEE doubles.
-/

namespace Dashboard

/-- A JavaScript number: NaN, +Infinity, -Infinity, or a finite value
(modelled as an exact rational). -/
inductive JSNum where
  | nan : JSNum
  | posInf : JSNum
  | negInf : JSNum
  | finite : ℚ → JSNum
deriving DecidableEq, Repr

/-- JavaScript `isNaN` on a `JSNum`. -/
def isNaN : JSNum → Bool
  | .nan => true
  | _ => false

/-- JavaScript division of two finite numbers: `a / 0` is NaN when `a = 0`,
`+Infinity` when `a > 0`, `-Infinity` when `a < 0`; otherwise the exact
quotient. -/
def jsDiv (a b : ℚ) : JSNum :=
  if b = 0 then
    if a = 0 then .nan
    else if a > 0 then .posInf
    else .negInf
  else .finite (a / b)

/-- Decimal digits of the fractional part `r / d` (long division), up to
`fuel` digits.  JavaScript prints the shortest round-tripping decimal of a
double; on the values any theorem below evaluates, the expansion
terminates and this is exact. -/
def fracDigits : Nat → Nat → Nat → String
  | 0, _, _ => ""
  | _, 0, _ => ""
  | fuel + 1, r, d =>
    toString (r * 10 / d) ++ fracDigits fuel (r * 10 % d) d

/-- Rendering of a finite JavaScript number by `ToString` / a template
literal: integers print with no decimal point, other values print their
decimal expansion (up to 17 digits, which is exact whenever the expansion
terminates there). -/
def decimalString (q : ℚ) : String :=
  (if q < 0 then "-" else "") ++
    toString (q.num.natAbs / q.den) ++
    (if q.num.natAbs % q.den = 0 then ""
     else "." ++ fracDigits 17 (q.num.natAbs % q.den) q.den)

/-- JavaScript `ToString` on a `JSNum`, as used by template literals. -/
def jsNumToString : JSNum → String
  | .nan => "NaN"
  | .posInf => "Infinity"
  | .negInf => "-Infinity"
  | .finite q => decimalString q

/-- `Number.prototype.toFixed(1)` on a nonnegative rational: the integer
`n` nearest to `q * 10` (ties towards the larger `n`), printed as
`n / 10 "." n % 10`. -/
def toFixed1Pos (q : ℚ) : String :=
  let n : Nat := (Int.floor (q * 10 + 1 / 2)).toNat
  toString (n / 10) ++ "." ++ toString (n % 10)

/-- `Number.prototype.toFixed(1)` on a finite rational: per ECMA-262 the
sign is split off first, then the magnitude is rounded.  (The ECMA branch
for magnitudes at or above 10^21, which falls back to `ToString`, is not
modelled; every theorem below applies `toFixed1` to values of magnitude at
most 1024.) -/
def toFixed1 (q : ℚ) : String :=
  if q < 0 then "-" ++ toFixed1Pos (-q) else toFixed1Pos q

/-- `Number.prototype.toFixed(1)` on a `JSNum`: non-finite values print as
their `ToString` form per ECMA-262. -/
def jsToFixed1 : JSNum → String
  | .nan => "NaN"
  | .posInf => "Infinity"
  | .negInf => "-Infinity"
  | .finite q => toFixed1 q

/-- The unit table of `bytesToRead`:
`const units = ['B', 'kB', 'MB', 'GB', 'TB', 'PB'];`. -/
def units : List String := ["B", "kB", "MB", "GB", "TB", "PB"]

/-- The `while (bytes > 1024) { bytes /= 1024; ++num; }` loop of
`bytesToRead`, on a finite value. -/
def bytesLoop (bytes : ℚ) (num : Nat) : ℚ × Nat :=
  if bytes > 1024 then bytesLoop (bytes / 1024) (num + 1) else (bytes, num)
termination_by (Int.ceil bytes).toNat
decreasing_by
  have h1 : bytes / 1024 ≤ bytes - 1 := by
    rw [div_le_iff₀ (by norm_num : (0:ℚ) < 1024)]
    nlinarith
  have h2 : Int.ceil (bytes / 1024) ≤ Int.ceil bytes - 1 := by
    calc Int.ceil (bytes / 1024) ≤ Int.ceil (bytes - 1) := Int.ceil_mono h1
    _ = Int.ceil bytes - 1 := by
        rw [show bytes - 1 = bytes + (-1 : ℤ) by push_cast; ring, Int.ceil_add_int]
        omega
  have h3 : (0:ℤ) < Int.ceil bytes := by
    have : (1024:ℚ) < bytes := by assumption
    have := Int.le_ceil bytes
    exact_mod_cast lt_of_lt_of_le (by linarith : (0:ℚ) < bytes) this
  omega

/-- The byte-size formatter `bytesToRead` of `Dashboard.tsx`:
NaN guard, `bytes === Infinity` guard (which only matches +Infinity),
the divide-by-1024 loop, then `toFixed(1)` and the unit at index `num`.
An out-of-range `units[num]` is JavaScript `undefined`, which a template
literal renders as the string `"undefined"`; this is modelled by
`List.getD` with default `"undefined"`.  For `-Infinity` both guards fail
and the loop condition `-Infinity > 1024` is false, so the loop body never
runs and `num` stays 0. -/
def bytesToRead : JSNum → String
  | .nan => "0.0 B"
  | .posInf => "0.0 B"
  | .negInf => jsToFixed1 .negInf ++ " " ++ units.getD 0 "undefined"
  | .finite q =>
    let p := bytesLoop q 0
    jsToFixed1 (.finite p.1) ++ " " ++ units.getD p.2 "undefined"

/-- One uploaded file as rendered by the dashboard (the fields the
component reads: `id`, `file`, `mimetype`, `created_at`, `url`). -/
structure FileRecord where
  id : Nat
  file : String
  mimetype : String
  created_at : String
  url : String
deriving DecidableEq, Repr

/-- One row of `stats.count_by_user`. -/
structure UserCount where
  username : String
  count : ℚ
deriving DecidableEq, Repr

/-- One row of `stats.types_count`. -/
structure TypeCount where
  mimetype : String
  count : ℚ
deriving DecidableEq, Repr

/-- The server stats snapshot consumed by the dashboard. -/
structure StatsSummary where
  size : String
  size_num : ℚ
  count : ℚ
  count_users : ℚ
  views_count : ℚ
  count_by_user : List UserCount
  types_count : List TypeCount
deriving DecidableEq, Repr

/-- The five `useState` slots of the `Dashboard` component:
`images`, `recent`, `page`, `stats`, `rowsPerPage`. -/
structure DashboardState where
  images : List FileRecord
  recent : List FileRecord
  page : Nat
  stats : Option StatsSummary
  rowsPerPage : Nat
deriving DecidableEq, Repr

/-- The initial component state:
`useState([])`, `useState([])`, `useState(0)`, `useState(null)`,
`useState(10)`. -/
def initialState : DashboardState :=
  { images := [], recent := [], page := 0, stats := none, rowsPerPage := 10 }

/-- JavaScript `Array.prototype.slice(start, stop)` for nonnegative
integer arguments: the elements with indices in `[start, stop)`,
silently clamped to the array bounds (out-of-range slices are legal and
yield a short or empty list; the operation never throws). -/
def jsSlice {α : Type} (l : List α) (start stop : Nat) : List α :=
  (l.drop start).take (stop - start)

/-- The row window of the paginated file table:
`images.slice(page * rowsPerPage, page * rowsPerPage + rowsPerPage)`. -/
def visibleRows (images : List FileRecord) (page rowsPerPage : Nat) :
    List FileRecord :=
  jsSlice images (page * rowsPerPage) (page * rowsPerPage + rowsPerPage)

/-- `handleChangePage`: `setPage(newPage)`. -/
def handleChangePage (s : DashboardState) (newPage : Nat) : DashboardState :=
  { s with page := newPage }

/-- `handleChangeRowsPerPage`: `setRowsPerPage(+event.target.value);
setPage(0);` — the parsed numeric value of the event target. -/
def handleChangeRowsPerPage (s : DashboardState) (value : Nat) : DashboardState :=
  { s with rowsPerPage := value, page := 0 }

/-- The body of a `DELETE /api/user/files` response: `{ error?: string }`.
`none` models an absent `error` field (falsy in the `if (!res.error)`
test). -/
structure DeleteResponse where
  error : Option String
deriving DecidableEq, Repr

/-- A network request issued through `useFetch`, identified by endpoint
and payload. -/
inductive Request where
  | getFiles : Request
  | getRecent : String → Request
  | getStats : Request
  | deleteFiles : Nat → Request
deriving DecidableEq, Repr

/-- One observable step of a handler: a network request being issued, or
one `useState` setter being applied. -/
inductive Event where
  | req : Request → Event
  | setImages : List FileRecord → Event
  | setStats : StatsSummary → Event
  | setRecent : List FileRecord → Event
deriving DecidableEq, Repr

/-- The network environment: the outcome of each endpoint.  `.error e`
models the `useFetch` promise rejecting (the `await` throws `e`);
`.ok v` models a resolved response `v`.  The delete outcome may depend on
the id sent. -/
structure Env where
  filesResp : Except String (List FileRecord)
  recentResp : Except String (List FileRecord)
  statsResp : Except String StatsSummary
  deleteResp : Nat → Except String DeleteResponse

/-- Effect of one event on the component state: a request changes no
state; each setter replaces exactly its own slot. -/
def applyEvent (s : DashboardState) : Event → DashboardState
  | .req _ => s
  | .setImages v => { s with images := v }
  | .setStats v => { s with stats := some v }
  | .setRecent v => { s with recent := v }

/-- Replay a trace of events over a component state. -/
def runEvents (evs : List Event) (s : DashboardState) : DashboardState :=
  evs.foldl applyEvent s

/-- The refresh orchestration `updateImages`, as the trace of events the
`async` body produces together with the rejection that escapes it (if
any).  Each `await useFetch(...)` issues its request only after the
previous one has resolved, so a rejection aborts the function before the
later requests and before the three setter calls; when all three awaits
resolve, the setters run in source order `setImages`, `setStats`,
`setRecent`. -/
def updateImages (env : Env) : List Event × Option String :=
  match env.filesResp with
  | .error e => ([.req .getFiles], some e)
  | .ok imgs =>
    match env.recentResp with
    | .error e => ([.req .getFiles, .req (.getRecent "media")], some e)
    | .ok recentList =>
      match env.statsResp with
      | .error e =>
        ([.req .getFiles, .req (.getRecent "media"), .req .getStats], some e)
      | .ok stts =>
        ([.req .getFiles, .req (.getRecent "media"), .req .getStats,
          .setImages imgs, .setStats stts, .setRecent recentList], none)

/-- The delete handler `handleDelete`: issue
`useFetch('/api/user/files', 'DELETE', { id: image.id })`; if the await
throws, the function aborts; otherwise, when the response carries no
`error` field, invoke `updateImages` (its trace follows the delete
request), else do nothing further. -/
def handleDelete (env : Env) (image : FileRecord) : List Event × Option String :=
  match env.deleteResp image.id with
  | .error e => ([.req (.deleteFiles image.id)], some e)
  | .ok res =>
    if res.error = none then
      (.req (.deleteFiles image.id) :: (updateImages env).1, (updateImages env).2)
    else
      ([.req (.deleteFiles image.id)], none)

/-- The Views card text:
`` `${stats.views_count} (${isNaN(stats.views_count / stats.count) ? '0' : stats.views_count / stats.count})` ``. -/
def viewsText (stats : StatsSummary) : String :=
  jsNumToString (.finite stats.views_count) ++ " (" ++
    (if isNaN (jsDiv stats.views_count stats.count) then "0"
     else jsNumToString (jsDiv stats.views_count stats.count)) ++ ")"

/-- The Average Size card text:
`bytesToRead(stats.size_num / stats.count)`. -/
def averageSizeText (stats : StatsSummary) : String :=
  bytesToRead (jsDiv stats.size_num stats.count)

/-- A concrete stats snapshot with `count = 0` and `views_count = 5`. -/
def statsFiveViewsNoImages : StatsSummary :=
  { size := "0 B", size_num := 0, count := 0, count_users := 1,
    views_count := 5, count_by_user := [], types_count := [] }

/-- A concrete uploaded file. -/
def sampleFile : FileRecord :=
  { id := 7, file := "cat.png", mimetype := "image/png",
    created_at := "2021-01-01T00:00:00Z", url := "/u/cat.png" }

/-- A concrete three-element file list. -/
def sampleFiles : List FileRecord :=
  [sampleFile, { sampleFile with id := 8 }, { sampleFile with id := 9 }]

/-- A concrete stats snapshot with three images. -/
def sampleStats : StatsSummary :=
  { size := "3 B", size_num := 3, count := 3, count_users := 1,
    views_count := 6, count_by_user := [{ username := "u", count := 3 }],
    types_count := [{ mimetype := "image/png", count := 3 }] }

/-- An environment in which every request resolves, and the delete
response carries no error. -/
def envOk : Env :=
  { filesResp := .ok sampleFiles, recentResp := .ok [sampleFile],
    statsResp := .ok sampleStats,
    deleteResp := fun _ => .ok { error := none } }

/-- An environment in which the recent-media request rejects and the
delete response reports an error. -/
def envErr : Env :=
  { filesResp := .ok sampleFiles, recentResp := .error "network down",
    statsResp := .ok sampleStats,
    deleteResp := fun _ => .ok { error := some "x" } }

/-- A populated component state. -/
def sampleState : DashboardState :=
  { images := sampleFiles, recent := [sampleFile], page := 1,
    stats := some sampleStats, rowsPerPage := 10 }

/-! ## Helper lemmas -/

/-- `toFixed(1)` on a natural number prints the number followed by
`.0`. -/
theorem toFixed1_nat (b : ℕ) : toFixed1 (b : ℚ) = toString b ++ ".0" := by
  have hfl : Int.floor ((b : ℚ) * 10 + 1 / 2) = 10 * b := by
    rw [Int.floor_eq_iff]
    constructor
    · push_cast; linarith
    · push_cast; linarith
  have hneg : ¬ ((b : ℚ) < 0) := not_lt.mpr (by positivity)
  rw [toFixed1, if_neg hneg, toFixed1Pos]
  simp only [hfl]
  rw [show ((10 * b : ℤ).toNat) = 10 * b by omega]
  rw [Nat.mul_div_cancel_left b (by norm_num), Nat.mul_mod_right]
  rw [String.append_assoc]
  congr 1

/-- The division loop leaves a value at most 1024 untouched. -/
theorem bytesLoop_of_le (q : ℚ) (num : Nat) (h : q ≤ 1024) :
    bytesLoop q num = (q, num) := by
  rw [bytesLoop, if_neg (not_lt.mpr h)]

/-- On input `1024 ^ 7` the division loop runs six times and stops at
value `1024`, unit index 6. -/
theorem bytesLoop_pow7 : bytesLoop ((1024 : ℚ) ^ 7) 0 = (1024, 6) := by
  rw [bytesLoop, if_pos (by norm_num)]
  rw [show ((1024 : ℚ) ^ 7 / 1024) = (1024 : ℚ) ^ 6 by ring]
  rw [bytesLoop, if_pos (by norm_num)]
  rw [show ((1024 : ℚ) ^ 6 / 1024) = (1024 : ℚ) ^ 5 by ring]
  rw [bytesLoop, if_pos (by norm_num)]
  rw [show ((1024 : ℚ) ^ 5 / 1024) = (1024 : ℚ) ^ 4 by ring]
  rw [bytesLoop, if_pos (by norm_num)]
  rw [show ((1024 : ℚ) ^ 4 / 1024) = (1024 : ℚ) ^ 3 by ring]
  rw [bytesLoop, if_pos (by norm_num)]
  rw [show ((1024 : ℚ) ^ 3 / 1024) = (1024 : ℚ) ^ 2 by ring]
  rw [bytesLoop, if_pos (by norm_num)]
  rw [show ((1024 : ℚ) ^ 2 / 1024) = (1024 : ℚ) by ring]
  rw [bytesLoop_of_le _ _ (le_refl _)]

/-- Unfolding of `bytesToRead` on a finite value. -/
theorem bytesToRead_finite (q : ℚ) :
    bytesToRead (.finite q) =
      jsToFixed1 (.finite (bytesLoop q 0).1) ++ " " ++
        units.getD (bytesLoop q 0).2 "undefined" := rfl

/-- `toFixed(1)` at 1024. -/
theorem toFixed1_at_1024 : toFixed1 (1024 : ℚ) = "1024.0" := by
  rw [show (1024 : ℚ) = ((1024 : ℕ) : ℚ) by norm_num, toFixed1_nat 1024]
  rfl

/-! ## Claim theorems -/

/-- C1 counterexample: with `stats.count = 0` and `stats.views_count = 5`
the displayed ratio string is `"5 (Infinity)"`, not `"5 (0)"` — the
division `5 / 0` evaluates to `Infinity`, which the `isNaN` guard does not
intercept. -/
theorem viewsText_five_over_zero_is_infinity :
    viewsText statsFiveViewsNoImages = "5 (Infinity)" ∧
      viewsText statsFiveViewsNoImages ≠ "5 (0)" := by
  constructor <;> decide

/-- C1 amended: when `stats.count = 0` and `stats.views_count = 5` the
displayed ratio renders `"5 (Infinity)"` (the NaN-guard does not fire on
`5 / 0 = Infinity`); the NaN-guard maps the division result to `'0'` only
when `views_count` is also 0, where `0 / 0 = NaN`, rendering
`"0 (0)"`. -/
theorem viewsText_count_zero_cases :
    viewsText statsFiveViewsNoImages = "5 (Infinity)" ∧
      viewsText { statsFiveViewsNoImages with views_count := 0 } = "0 (0)" := by
  constructor <;> decide

/-- C2: for every byte count `b` with `0 ≤ b ≤ 1024` the formatter
returns `"<b>.0 B"`: the loop condition `b > 1024` fails at once, so the
loop body never executes, and `toFixed(1)` renders one decimal place with
unit `B`. -/
theorem bytesToRead_small (b : ℕ) (h : b ≤ 1024) :
    bytesToRead (.finite (b : ℚ)) = toString b ++ ".0 B" := by
  rw [bytesToRead_finite, bytesLoop_of_le _ _ (by exact_mod_cast h)]
  show toFixed1 (b : ℚ) ++ " " ++ "B" = toString b ++ ".0 B"
  rw [toFixed1_nat b, String.append_assoc, String.append_assoc]
  congr 1

/-- C2 witness at `b = 5`. -/
theorem bytesToRead_small_witness :
    (5 : ℕ) ≤ 1024 ∧ bytesToRead (.finite ((5 : ℕ) : ℚ)) = "5.0 B" :=
  ⟨by decide, (bytesToRead_small 5 (by decide)).trans (by decide)⟩

/-- C3 counterexample: the formatter maps `-Infinity` to `"-Infinity B"`,
not `"0.0 B"` — the guard `bytes === Infinity` only matches `+Infinity`,
and the loop condition `-Infinity > 1024` is false, so `-Infinity` reaches
`toFixed(1)` directly. -/
theorem bytesToRead_negInf_not_zero :
    bytesToRead .negInf = "-Infinity B" ∧ bytesToRead .negInf ≠ "0.0 B" := by
  constructor <;> decide

/-- C3 amended: the formatter maps NaN to `"0.0 B"` and `+Infinity` to
`"0.0 B"`, but `-Infinity` (not matched by the `bytes === Infinity`
guard) to `"-Infinity B"`. -/
theorem bytesToRead_nonfinite :
    bytesToRead .nan = "0.0 B" ∧ bytesToRead .posInf = "0.0 B" ∧
      bytesToRead .negInf = "-Infinity B" := by
  refine ⟨by decide, by decide, by decide⟩

/-- C4: on the finite input `1024 ^ 7 > 1024 ^ 6` the division loop runs
six times, so the final unit index 6 is past the end of the six-element
unit list; the out-of-range `units[6]` is JavaScript `undefined` and the
rendered string becomes `"1024.0 undefined"`. -/
theorem bytesToRead_unit_index_out_of_range :
    (1024 : ℚ) ^ 7 > 1024 ^ 6 ∧
      (bytesLoop ((1024 : ℚ) ^ 7) 0).2 = 6 ∧
      units.length = 6 ∧
      bytesToRead (.finite ((1024 : ℚ) ^ 7)) = "1024.0 undefined" := by
  refine ⟨by norm_num, by rw [bytesLoop_pow7], by decide, ?_⟩
  rw [bytesToRead_finite, bytesLoop_pow7]
  show toFixed1 (1024 : ℚ) ++ " " ++ "undefined" = "1024.0 undefined"
  rw [toFixed1_at_1024]
  decide

/-- C5: the rendered row window equals the slice
`L[p·s : p·s + s]`, i.e. drop `p·s` then take `s`; when `p·s` is at or
beyond the end of the list the window is empty.  The computation is a
total function, so it never throws. -/
theorem visibleRows_is_slice (L : List FileRecord) (p s : Nat) :
    visibleRows L p s = (L.drop (p * s)).take s ∧
      (L.length ≤ p * s → visibleRows L p s = []) := by
  constructor
  · rw [visibleRows, jsSlice, Nat.add_sub_cancel_left]
  · intro h
    rw [visibleRows, jsSlice, List.drop_eq_nil_of_le h, List.take_nil]

/-- C5 witness: three files, page 2, page size 10 — the window starts at
index 20, past the end, and is empty. -/
theorem visibleRows_is_slice_witness :
    visibleRows sampleFiles 2 10 = (sampleFiles.drop 20).take 10 ∧
      sampleFiles.length ≤ 20 ∧ visibleRows sampleFiles 2 10 = [] :=
  ⟨(visibleRows_is_slice sampleFiles 2 10).1, by decide,
    (visibleRows_is_slice sampleFiles 2 10).2 (by decide)⟩

/-- C6: the page-size change handler sets `rowsPerPage` to the new value,
resets `page` to 0, and leaves the file list, the recent list and the
stats untouched. -/
theorem handleChangeRowsPerPage_frame (s : DashboardState) (v : Nat) :
    (handleChangeRowsPerPage s v).rowsPerPage = v ∧
      (handleChangeRowsPerPage s v).page = 0 ∧
      (handleChangeRowsPerPage s v).images = s.images ∧
      (handleChangeRowsPerPage s v).recent = s.recent ∧
      (handleChangeRowsPerPage s v).stats = s.stats :=
  ⟨rfl, rfl, rfl, rfl, rfl⟩

/-- C7: the delete handler first issues a DELETE request carrying the
record's id; when the response reports no error the refresh orchestration
runs (its trace follows the delete request), and when it reports an error
nothing else happens — the trace is the lone delete request and replaying
it leaves the component state (hence the displayed rows) unchanged. -/
theorem handleDelete_refresh_iff_no_error (env : Env) (image : FileRecord)
    (s : DashboardState) (res : DeleteResponse)
    (hres : env.deleteResp image.id = .ok res) :
    (handleDelete env image).1.head? = some (.req (.deleteFiles image.id)) ∧
      (res.error = none →
        handleDelete env image =
          (.req (.deleteFiles image.id) :: (updateImages env).1,
            (updateImages env).2)) ∧
      (res.error ≠ none →
        handleDelete env image = ([.req (.deleteFiles image.id)], none) ∧
          runEvents (handleDelete env image).1 s = s) := by
  have h1 : handleDelete env image =
      (if res.error = none then
        (.req (.deleteFiles image.id) :: (updateImages env).1,
          (updateImages env).2)
      else ([.req (.deleteFiles image.id)], none)) := by
    unfold handleDelete
    rw [hres]
  by_cases hE : res.error = none
  · rw [h1, if_pos hE]
    exact ⟨rfl, fun _ => rfl, fun hne => absurd hE hne⟩
  · rw [h1, if_neg hE]
    exact ⟨rfl, fun hn => absurd hn hE, fun _ => ⟨rfl, rfl⟩⟩

/-- C7 witness: in `envErr` the delete response reports the error `"x"`,
so the trace is the lone delete request and the state is unchanged. -/
theorem handleDelete_refresh_iff_no_error_witness :
    (handleDelete envErr sampleFile).1.head? =
        some (.req (.deleteFiles sampleFile.id)) ∧
      ((DeleteResponse.mk (some "x")).error = none →
        handleDelete envErr sampleFile =
          (.req (.deleteFiles sampleFile.id) :: (updateImages envErr).1,
            (updateImages envErr).2)) ∧
      ((DeleteResponse.mk (some "x")).error ≠ none →
        handleDelete envErr sampleFile =
          ([.req (.deleteFiles sampleFile.id)], none) ∧
          runEvents (handleDelete envErr sampleFile).1 sampleState =
            sampleState) :=
  handleDelete_refresh_iff_no_error envErr sampleFile sampleState
    (DeleteResponse.mk (some "x")) rfl

/-- C8: when all three reads resolve, the refresh orchestration issues
exactly the requests file list, recent media (with the `media` filter),
stats — in that order, each only after the previous resolved — and then
applies the setters in the order `setImages`, `setStats`, `setRecent`,
replacing the three state slots with the responses. -/
theorem updateImages_success_trace (env : Env) (s : DashboardState)
    (imgs recentList : List FileRecord) (stts : StatsSummary)
    (hf : env.filesResp = .ok imgs) (hr : env.recentResp = .ok recentList)
    (hs : env.statsResp = .ok stts) :
    updateImages env =
      ([.req .getFiles, .req (.getRecent "media"), .req .getStats,
        .setImages imgs, .setStats stts, .setRecent recentList], none) ∧
      runEvents (updateImages env).1 s =
        { s with images := imgs, stats := some stts, recent := recentList } := by
  have h1 : updateImages env =
      ([.req .getFiles, .req (.getRecent "media"), .req .getStats,
        .setImages imgs, .setStats stts, .setRecent recentList], none) := by
    unfold updateImages
    rw [hf, hr, hs]
  refine ⟨h1, ?_⟩
  rw [h1]
  rfl

/-- C8 witness: the fully resolving environment `envOk` over
`sampleState`. -/
theorem updateImages_success_trace_witness :
    updateImages envOk =
      ([.req .getFiles, .req (.getRecent "media"), .req .getStats,
        .setImages sampleFiles, .setStats sampleStats,
        .setRecent [sampleFile]], none) ∧
      runEvents (updateImages envOk).1 sampleState =
        { sampleState with
            images := sampleFiles
            stats := some sampleStats
            recent := [sampleFile] } :=
  updateImages_success_trace envOk sampleState sampleFiles [sampleFile]
    sampleStats rfl rfl rfl

/-- C9: the refresh orchestration is all-or-nothing — every request is
awaited before any setter runs, so if any of the three requests rejects,
replaying the produced trace leaves all three state slots (files, stats,
recent) exactly as they were. -/
theorem updateImages_failure_keeps_state (env : Env) (s : DashboardState)
    (h : (updateImages env).2.isSome) :
    runEvents (updateImages env).1 s = s := by
  rcases hf : env.filesResp with ef | imgs <;>
    rcases hr : env.recentResp with er | recentList <;>
      rcases hs : env.statsResp with es | stts <;>
        simp [updateImages, hf, hr, hs, runEvents, applyEvent] at h ⊢

/-- C9 witness: in `envErr` the file-list request resolves but the
recent-media request rejects; no slot of the populated state changes, in
particular the already-fetched file list is not committed. -/
theorem updateImages_failure_keeps_state_witness :
    runEvents (updateImages envErr).1 sampleState = sampleState :=
  updateImages_failure_keeps_state envErr sampleState (by decide)

/-- C10: with `stats.count = 0` the Average Size card passes
`stats.size_num / stats.count` — NaN when `size_num = 0`, `±Infinity`
otherwise — into the byte formatter, and in the NaN case the formatter's
NaN guard renders exactly `"0.0 B"`. -/
theorem averageSize_count_zero (stats : StatsSummary) (h : stats.count = 0) :
    (stats.size_num = 0 →
        jsDiv stats.size_num stats.count = .nan ∧
          averageSizeText stats = "0.0 B") ∧
      (stats.size_num > 0 → jsDiv stats.size_num stats.count = .posInf) ∧
      (stats.size_num < 0 → jsDiv stats.size_num stats.count = .negInf) := by
  refine ⟨fun h0 => ?_, fun hpos => ?_, fun hneg => ?_⟩
  · have hd : jsDiv stats.size_num stats.count = .nan := by
      simp [jsDiv, h, h0]
    refine ⟨hd, ?_⟩
    rw [averageSizeText, hd]
    rfl
  · simp [jsDiv, h, hpos, hpos.ne']
  · simp [jsDiv, h, hneg, hneg.ne, asymm hneg]

/-- C10 witness: `size_num = 0`, `count = 0` — the division is NaN and
the card shows `"0.0 B"`. -/
theorem averageSize_count_zero_witness :
    jsDiv statsFiveViewsNoImages.size_num statsFiveViewsNoImages.count =
        .nan ∧
      averageSizeText statsFiveViewsNoImages = "0.0 B" :=
  (averageSize_count_zero statsFiveViewsNoImages rfl).1 rfl

end Dashboard
